import Mathlib

/-!
A shallow embedding of the preferences registry (`PreferencesAPI`) and the
C++ deployer strategies (`debugdeploy.ts`) of the vscode-wpilib extension,
with theorems settling the specification claims about them.

Conventions of the embedding:
* JavaScript reference identity (`===`) of `vscode.Uri` objects is modelled
  by a numeric `id` field on `Uri`.
* Asynchronous collaborators (the Gradle runner, file reader + JSONC parser,
  interactive pickers, the host-platform query) are modelled as oracle
  fields of an environment structure; each `runDeployer` is a pure function
  of its environment.
* A JavaScript `TypeError` (field access on `undefined`) is modelled by the
  embedded function returning `none`; an ordinary `false`/`true` return is
  `some` of a result record.
* A JavaScript `Set` constructed from an array and then iterated is
  modelled by `jsSetList`, the insertion-order de-duplication of the list.
-/

namespace WPILib

/-! ### Editor model -/

/-- A `vscode.Uri`.  `id` stands for the object's reference identity
(`===` compares references, not path text); `fsPath` is the filesystem
path the extension reads off the uri. -/
structure Uri where
  id : Nat
  fsPath : String
deriving DecidableEq

/-- A `vscode.WorkspaceFolder`: the registry and the deployers only ever
use its `uri`. -/
structure WorkspaceFolder where
  uri : Uri
deriving DecidableEq

/-! ### Preference stores -/

/-- The externally-persisted data a `Preferences` store exposes through its
getters (`getOnline`, `getStopSimulationOnEntry`, `getCurrentLanguage`). -/
structure PrefData where
  online : Bool
  stopSimulationOnEntry : Bool
  currentLanguage : String
deriving DecidableEq

/-- A `Preferences` store: one per workspace folder.  `generation` is the
model's tag for which rebuild of the registry created the store (the
initial population is generation `0`); it stands for the object identity
of the store. -/
structure Preferences where
  workspace : WorkspaceFolder
  data : PrefData
  generation : Nat
deriving DecidableEq

def Preferences.getOnline (p : Preferences) : Bool :=
  p.data.online

def Preferences.getStopSimulationOnEntry (p : Preferences) : Bool :=
  p.data.stopSimulationOnEntry

def Preferences.getCurrentLanguage (p : Preferences) : String :=
  p.data.currentLanguage

/-! ### PreferencesAPI -/

/-- `PreferencesAPI.getPreferences`: scan `this.preferences` for the first
store whose `workspace.uri` is reference-equal to the argument's; fall back
to `this.preferences[0]` (which is JavaScript `undefined`, here `none`,
when the sequence is empty). -/
def getPreferences (prefs : List Preferences) (workspace : WorkspaceFolder) :
    Option Preferences :=
  match prefs.find? (fun p => p.workspace.uri.id == workspace.uri.id) with
  | some p => some p
  | none => prefs.head?

/-- `PreferencesAPI.getFirstOrSelectedWorkspace`.  `wp` is
`vscode.workspace.workspaceFolders` (possibly `undefined`); `pick` is the
outcome of `vscode.window.showWorkspaceFolderPick()` when it is invoked
(`none` = the user dismissed the picker).  Returns the chosen folder (or
`none`) together with whether the picker was invoked. -/
def getFirstOrSelectedWorkspace (wp : Option (List WorkspaceFolder))
    (pick : Option WorkspaceFolder) : Option WorkspaceFolder × Bool :=
  match wp with
  | none => (none, false)
  | some l =>
    if l.length > 1 then
      match pick with
      | some res => (some res, true)
      | none => (none, true)
    else if l.length = 1 then
      (l[0]?, false)
    else
      (none, false)

/-- One element of the `IPreferencesChangedPair[]` payload fired on the
`preferencesEmitter`. -/
structure PreferencesChangedPair where
  preference : Preferences
  workspace : WorkspaceFolder
deriving DecidableEq

/-- The mutable state of a `PreferencesAPI` instance relevant to the
folder-change protocol: the held store sequence and the model's generation
counter (how many rebuilds have happened).  The `disposables` bookkeeping
is not modelled: no claim touches it, and disposal of the stores
themselves is reported explicitly by `onDidChangeWorkspaceFolders`. -/
structure RegistryState where
  preferences : List Preferences
  generation : Nat
deriving DecidableEq

/-- `Preferences.Create(w)`: the store built for folder `w` during rebuild
number `g`; its data comes from the external configuration oracle `env`. -/
def mkPreferences (env : WorkspaceFolder → PrefData) (g : Nat)
    (w : WorkspaceFolder) : Preferences :=
  ⟨w, env w, g⟩

/-- The `onDidChangeWorkspaceFolders` handler registered in
`PreferencesAPI.asyncInitialize`.  `wp` is the value of
`vscode.workspace.workspaceFolders` at the time the event fires.  Returns
the new registry state, the list of stores disposed during the event
(every previously held store — they are disposed before `wp` is
examined), and the list of events fired on the emitter (each event is one
pair array).  Mirrors the source: when `wp` is `undefined` the handler
returns after the disposal loop, so the store sequence is left in place
and nothing is fired. -/
def onDidChangeWorkspaceFolders (env : WorkspaceFolder → PrefData)
    (s : RegistryState) (wp : Option (List WorkspaceFolder)) :
    RegistryState × List Preferences × List (List PreferencesChangedPair) :=
  let disposedNow := s.preferences
  match wp with
  | none => (s, disposedNow, [])
  | some wpl =>
    let g := s.generation + 1
    let newPrefs := wpl.map (mkPreferences env g)
    let pairArr := wpl.map fun w =>
      ({ preference := mkPreferences env g w, workspace := w } :
        PreferencesChangedPair)
    (⟨newPrefs, g⟩, disposedNow, [pairArr])

/-! ### Path utilities (`path.dirname`, `path.join`, `path.delimiter`) -/

/-- The backwards scan inside Node's posix `path.dirname`: walk index `i`
down to `1`, skipping the run of trailing slashes, and return the index of
the slash that ends the parent prefix (`none` when no such slash exists).
The `Nat` argument is the current index. -/
def dirnameLoop (cs : List Char) : Nat → Bool → Option Nat
  | 0, _ => none
  | Nat.succ i, matchedSlash =>
    if cs.getD (i + 1) ' ' = '/' then
      if matchedSlash then dirnameLoop cs i matchedSlash else some (i + 1)
    else
      dirnameLoop cs i false

/-- Node's posix `path.dirname`. -/
def dirname (p : String) : String :=
  if p.length = 0 then "."
  else
    let cs := p.data
    let hasRoot := cs.getD 0 ' ' = '/'
    match dirnameLoop cs (p.length - 1) true with
    | none => if hasRoot then "/" else "."
    | some e =>
      if hasRoot ∧ e = 1 then "//"
      else ⟨cs.take e⟩

/-- Node's `path.join` as the deployers use it: an absolute base directory
joined with plain relative segments (no `..`, no trailing separators), so
normalisation is the identity and join is separator-interposition. -/
def pathJoin (base : String) (parts : List String) : String :=
  parts.foldl (fun acc p => acc ++ "/" ++ p) base

/-- Node's `path.delimiter` for the host platform: `";"` on Windows, `":"`
elsewhere. -/
def delimiter (isWindows : Bool) : String :=
  if isWindows then ";" else ":"

/-- Iterating a JavaScript `Set` built from a list: the distinct elements
in order of first insertion. -/
def jsSetList (l : List String) : List String :=
  l.foldl (fun acc p => if acc.contains p then acc else acc ++ [p]) []

/-- The `soLibPath` computation shared by the debug and simulate variants:
build a `Set` from `sofiles`, append `path.dirname(p) + ";"` for each
element, then `substring(0, length - 1)` (drop the final character;
JavaScript clamps the negative end index of the empty string to `0`). -/
def soPathOf (sofiles : List String) : String :=
  let set := jsSetList sofiles
  let soPath := set.foldl (fun acc p => acc ++ dirname p ++ ";") ""
  ⟨soPath.data.dropLast⟩

/-- Written from the spec's words for the refinement comparison in P6:
a semicolon-joined list of directories. -/
def joinDirs : List String → String
  | [] => ""
  | [d] => d
  | d :: rest => d ++ ";" ++ joinDirs rest

/-- Each element followed by a `";"`, concatenated: the intermediate value
`soPath` holds before the final character is dropped. -/
def semiConcat : List String → String
  | [] => ""
  | d :: t => d ++ ";" ++ semiConcat t

/-! ### Descriptor records and launch configurations -/

/-- `ICppDebugInfo`: one entry of the artifact index
`build/debug/debuginfo.json`. -/
structure ICppDebugInfo where
  debugfile : String
  artifact : String
deriving DecidableEq

/-- `ICppDebugCommand`: a resolved launch/simulate target descriptor.
Optional fields of the TypeScript interface are `Option`s; the non-null
assertions applied to them in the source are modelled at use sites. -/
structure ICppDebugCommand where
  name : Option String
  extensions : Option String
  clang : Option Bool
  launchfile : String
  target : String
  gdb : String
  sysroot : Option String
  srcpaths : List String
  headerpaths : List String
  sofiles : List String
  libsrcpaths : List String
deriving DecidableEq

/-- `IDebugCommands`: the configuration handed to `startDebugging`, with
exactly the fields the construction site populates.  `srcPaths` is a
`Set` built from `srcpaths`, modelled in insertion order. -/
structure IDebugCommands where
  executablePath : String
  gdbPath : String
  soLibPath : String
  srcPaths : List String
  sysroot : String
  target : String
  workspace : WorkspaceFolder
deriving DecidableEq

/-- `IUnixSimulateCommands`: the configuration handed to
`startUnixSimulation`.  `clang` is fed from `targetSimulateInfo.clang!`,
whose runtime value may still be `undefined`, hence `Option Bool`. -/
structure IUnixSimulateCommands where
  clang : Option Bool
  executablePath : String
  extensions : String
  soLibPath : String
  srcPaths : List String
  stopAtEntry : Bool
  workspace : WorkspaceFolder
deriving DecidableEq

/-- `IWindowsSimulateCommands`: the configuration handed to
`startWindowsSimulation`.  It has no library-path and no toolchain-flag
field. -/
structure IWindowsSimulateCommands where
  extensions : String
  launchfile : String
  stopAtEntry : Bool
  workspace : WorkspaceFolder
deriving DecidableEq

/-- Which simulation launcher was invoked, with its configuration. -/
inductive SimLaunch where
  | unix (config : IUnixSimulateCommands)
  | windows (config : IWindowsSimulateCommands)
deriving DecidableEq

/-- One invocation of the external Gradle build-runner
(`gradleRun(command, fsPath, workspace, online)`). -/
structure GradleCall where
  command : String
  fsPath : String
  workspace : WorkspaceFolder
  online : Bool
deriving DecidableEq

/-! ### Deployer strategies -/

/-- The artifact/target selection pattern shared by the debug and simulate
variants: `target = parsed[0]`, overridden by a quick-pick when the list
has more than one entry.  `pick` is the picker outcome when invoked
(`none` = dismissed).  Result: `none` = run cancelled ("Artifact
cancelled"); `some none` = the selected target is JavaScript `undefined`
(empty list, no picker shown); `some (some t)` = target `t` selected. -/
def selectedTarget {α : Type} (parsed : List α) (pick : Option α) :
    Option (Option α) :=
  if parsed.length > 1 then
    match pick with
    | none => none
    | some p => some (some p)
  else
    some parsed[0]?

/-- The result of one `runDeployer` call that returned (rather than
threw): the Gradle invocation it made, the boolean it returned, and the
configuration it handed to its launcher (`none` when no launcher ran). -/
structure DebugRunResult where
  gradleCall : GradleCall
  ret : Bool
  launched : Option IDebugCommands
deriving DecidableEq

/-- The collaborators of `DebugCodeDeployer.runDeployer`: the build
runner's exit code, the parsed artifact index read from
`build/debug/debuginfo.json`, the artifact picker outcome, and the parsed
`ICppDebugCommand` read from a given debug-descriptor path. -/
structure DebugEnv where
  gradle : GradleCall → Int
  debugInfo : List ICppDebugInfo
  pick : Option ICppDebugInfo
  targetInfo : String → ICppDebugCommand

/-- `DebugCodeDeployer.runDeployer`.  `none` models a thrown `TypeError`
(`.getOnline()` on an `undefined` preferences object, or `.debugfile` on
an `undefined` target). -/
def DebugCodeDeployer.runDeployer (prefs : List Preferences) (env : DebugEnv)
    (teamNumber : Int) (workspace : WorkspaceFolder) :
    Option DebugRunResult :=
  let command := "deploy -PdebugMode -PteamNumber=" ++ toString teamNumber
  match getPreferences prefs workspace with
  | none => none
  | some prefsW =>
    let call : GradleCall :=
      ⟨command, workspace.uri.fsPath, workspace, prefsW.getOnline⟩
    if env.gradle call ≠ 0 then some ⟨call, false, none⟩
    else
      match selectedTarget env.debugInfo env.pick with
      | none => some ⟨call, false, none⟩
      | some none => none
      | some (some target) =>
        let debugPath :=
          pathJoin workspace.uri.fsPath ["build", "debug", target.debugfile]
        let ti := env.targetInfo debugPath
        let soPath := soPathOf ti.sofiles
        let sysroot := match ti.sysroot with | none => "" | some s => s
        let config : IDebugCommands :=
          ⟨ti.launchfile, ti.gdb, soPath, jsSetList ti.srcpaths, sysroot,
           ti.target, workspace⟩
        some ⟨call, true, some config⟩

/-- The result of one `DeployCodeDeployer.runDeployer` call: the Gradle
invocation, the returned boolean, and the list of files the run read
(the source contains no file read, so the log stays empty). -/
structure DeployRunResult where
  gradleCall : GradleCall
  ret : Bool
  filesRead : List String
deriving DecidableEq

/-- `DeployCodeDeployer.runDeployer`.  Its only collaborator is the build
runner.  `none` models `.getOnline()` on an `undefined` preferences
object. -/
def DeployCodeDeployer.runDeployer (prefs : List Preferences)
    (gradle : GradleCall → Int) (teamNumber : Int)
    (workspace : WorkspaceFolder) : Option DeployRunResult :=
  let command := "deploy -PteamNumber=" ++ toString teamNumber
  match getPreferences prefs workspace with
  | none => none
  | some prefsW =>
    let call : GradleCall :=
      ⟨command, workspace.uri.fsPath, workspace, prefsW.getOnline⟩
    if gradle call ≠ 0 then some ⟨call, false, []⟩
    else some ⟨call, true, []⟩

/-- The extensions string the simulate variant builds: when the target's
`extensions` string is non-empty an interactive multi-select picker runs
over its entries; the chosen items' `path` fields are concatenated, each
followed by `path.delimiter`; a dismissed picker (`extPick = none`)
contributes nothing. -/
def chosenExtensions (isWindows : Bool) (tex : String)
    (extPick : Option (List String)) : String :=
  if tex.length > 0 then
    match extPick with
    | none => ""
    | some chosen =>
      chosen.foldl (fun acc p => acc ++ p ++ delimiter isWindows) ""
  else ""

/-- The result of one `SimulateCodeDeployer.runDeployer` call. -/
structure SimRunResult where
  gradleCall : GradleCall
  ret : Bool
  launched : Option SimLaunch
deriving DecidableEq

/-- The collaborators of `SimulateCodeDeployer.runDeployer`: the build
runner's exit code, the parsed target list read from
`build/debug/desktopinfo.json`, the target picker outcome, the extension
multi-select outcome (`none` = dismissed, `some l` = the `path` fields of
the chosen items), and the host-platform query `getIsWindows()`. -/
structure SimEnv where
  gradle : GradleCall → Int
  desktopInfo : List ICppDebugCommand
  targetPick : Option ICppDebugCommand
  extPick : Option (List String)
  isWindows : Bool

/-- `SimulateCodeDeployer.runDeployer`.  The team-number parameter is
named `_` in the source and unused.  `none` models a thrown `TypeError`
(`.getOnline()` on `undefined`, `.extensions` on an `undefined` target,
or `.length` on an `undefined` extensions string).  The second
`getPreferences` call of the source (for `stopAtEntry`) has the same
argument and the same unchanged state as the first, so its result is
reused. -/
def SimulateCodeDeployer.runDeployer (prefs : List Preferences)
    (env : SimEnv) (_teamNumber : Int) (workspace : WorkspaceFolder) :
    Option SimRunResult :=
  let command := "simulateExternalCpp"
  match getPreferences prefs workspace with
  | none => none
  | some prefsW =>
    let call : GradleCall :=
      ⟨command, workspace.uri.fsPath, workspace, prefsW.getOnline⟩
    if env.gradle call ≠ 0 then some ⟨call, false, none⟩
    else
      match selectedTarget env.desktopInfo env.targetPick with
      | none => some ⟨call, false, none⟩
      | some none => none
      | some (some t) =>
        match t.extensions with
        | none => none
        | some tex =>
          let extensions := chosenExtensions env.isWindows tex env.extPick
          if !env.isWindows then
            let soPath := soPathOf t.sofiles
            let config : IUnixSimulateCommands :=
              ⟨t.clang, t.launchfile, extensions, soPath,
               jsSetList t.srcpaths, prefsW.getStopSimulationOnEntry,
               workspace⟩
            some ⟨call, true, some (SimLaunch.unix config)⟩
          else
            let config : IWindowsSimulateCommands :=
              ⟨extensions, t.launchfile, prefsW.getStopSimulationOnEntry,
               workspace⟩
            some ⟨call, true, some (SimLaunch.windows config)⟩

/-! ### Composition root (`DebugDeploy`) -/

/-- The three deployer instances the composition root creates. -/
inductive CppDeployer where
  | debugDeployer
  | deployDeployer
  | simulator
deriving DecidableEq

/-- The registration state of the external `IDeployDebugAPI` collaborator:
what has been registered through `addLanguageChoice`,
`registerCodeDeploy`, `registerCodeDebug` and `registerCodeSimulate`. -/
structure DeployDebugApiState where
  languageChoices : List String
  codeDeployers : List CppDeployer
  codeDebuggers : List CppDeployer
  codeSimulators : List CppDeployer
deriving DecidableEq

/-- The `DebugDeploy` constructor's effect on the deployer registry:
`addLanguageChoice('cpp')`, always `registerCodeDeploy(deployDeployer)`,
and `registerCodeDebug(debugDeployer)` + `registerCodeSimulate(simulator)`
exactly when `allowDebug`. -/
def DebugDeploy.construct (allowDebug : Bool) (api : DeployDebugApiState) :
    DeployDebugApiState :=
  let api := { api with languageChoices := api.languageChoices ++ ["cpp"] }
  let api :=
    { api with codeDeployers := api.codeDeployers ++ [.deployDeployer] }
  if allowDebug then
    { api with
      codeDebuggers := api.codeDebuggers ++ [.debugDeployer]
      codeSimulators := api.codeSimulators ++ [.simulator] }
  else api

/-- `DebugDeploy.dispose`: an empty body. -/
def DebugDeploy.dispose : Unit := ()

/-! ### Concrete fixtures used by witnesses and counterexamples -/

def folderA : WorkspaceFolder := ⟨⟨0, "/a"⟩⟩

def folderB : WorkspaceFolder := ⟨⟨1, "/b"⟩⟩

def dataA : PrefData := ⟨true, false, "cpp"⟩

def storeA : Preferences := ⟨folderA, dataA, 0⟩

def storeB : Preferences := ⟨folderB, ⟨false, true, "cpp"⟩, 0⟩

def envA : WorkspaceFolder → PrefData := fun _ => dataA

def s0 : RegistryState := ⟨[storeA], 0⟩

def gradleZero : GradleCall → Int := fun _ => 0

def debugInfoA : ICppDebugInfo := ⟨"t.json", "artifactA"⟩

def debugInfoB : ICppDebugInfo := ⟨"u.json", "artifactB"⟩

/-- A concrete resolved target descriptor. -/
def cmdA : ICppDebugCommand :=
  ⟨some "simA", some "ext", some true, "launch", "tgt", "gdb", none,
   ["/s"], [], ["/a/x.so", "/a/y.so", "/b/z.so"], []⟩

/-- Debug collaborators: build succeeds, two artifacts, picker dismissed. -/
def debugEnvCancel : DebugEnv := ⟨gradleZero, [debugInfoA, debugInfoB], none, fun _ => cmdA⟩

/-- Debug collaborators: build succeeds, empty artifact index. -/
def debugEnvEmpty : DebugEnv := ⟨gradleZero, [], none, fun _ => cmdA⟩

/-- Simulate collaborators on Unix: build succeeds, one target, extension
picker dismissed. -/
def simEnvUnix : SimEnv := ⟨gradleZero, [cmdA], none, none, false⟩

/-- Simulate collaborators on Windows: build succeeds, one target,
extension picker dismissed. -/
def simEnvWin : SimEnv := ⟨gradleZero, [cmdA], none, none, true⟩

/-! ### Helper lemmas -/

theorem foldl_semi (ds : List String) (a : String) :
    ds.foldl (fun acc p => acc ++ dirname p ++ ";") a
      = a ++ semiConcat (ds.map dirname) := by
  induction ds generalizing a with
  | nil => simp [semiConcat]
  | cons d t ih =>
    simp only [List.foldl_cons, List.map_cons, semiConcat]
    rw [ih]
    simp [String.append_assoc]

theorem semiConcat_data_ne_nil (d : String) (t : List String) :
    (semiConcat (d :: t)).data ≠ [] := by
  have h : (";" : String).data = [';'] := rfl
  simp only [semiConcat, String.data_append, h]
  simp

theorem dropLast_semiConcat (ds : List String) :
    (semiConcat ds).data.dropLast = (joinDirs ds).data := by
  match ds with
  | [] => rfl
  | [d] =>
    show ((d ++ ";" ++ "").data).dropLast = d.data
    rw [String.append_empty, String.data_append]
    have h : (";" : String).data = [';'] := rfl
    rw [h]
    exact List.dropLast_concat
  | d :: e :: t =>
    have ih := dropLast_semiConcat (e :: t)
    have h : (";" : String).data = [';'] := rfl
    have hne : (semiConcat (e :: t)).data ≠ [] := semiConcat_data_ne_nil e t
    show ((d ++ ";" ++ semiConcat (e :: t)).data).dropLast
        = ((d ++ ";" ++ joinDirs (e :: t)).data)
    rw [String.data_append, String.data_append, String.data_append,
      String.data_append, h, List.append_assoc, List.append_assoc,
      List.dropLast_append_of_ne_nil _ (by simp),
      List.dropLast_append_of_ne_nil _ hne, ih]

/-! ### Claim theorems -/

/-- C2 counterexample: for the spec's own example the derived library
search path is `/a;/a;/b` — the directory `/a`, shared by two distinct
`.so` files, appears twice, refuting directory-level de-duplication. -/
theorem soPath_dedup_counterexample :
    soPathOf ["/a/x.so", "/a/y.so", "/b/z.so"] = joinDirs ["/a", "/a", "/b"]
    ∧ (["/a", "/a", "/b"].count "/a") = 2 := by
  constructor <;> decide

/-- C2 (amended): the library search path is de-duplicated at the file
level: the result is the containing directory of each distinct listed
file, in order of first occurrence, semicolon-joined — so duplicates of a
file are dropped, but a directory appears once per distinct file it
contains. -/
theorem soPathOf_eq (l : List String) :
    soPathOf l = joinDirs ((jsSetList l).map dirname) := by
  show String.mk
      (((jsSetList l).foldl (fun acc p => acc ++ dirname p ++ ";") "").data.dropLast)
    = joinDirs ((jsSetList l).map dirname)
  rw [foldl_semi, String.empty_append, dropLast_semiConcat]

/-- C3: `getPreferences` is total and never throws: when some held store's
folder uri is reference-equal to the argument's it returns a held matching
store; when none matches it returns `preferences[0]`; on an empty
sequence the caller receives an absent result. -/
theorem getPreferences_total_spec (prefs : List Preferences)
    (w : WorkspaceFolder) :
    ((∃ p ∈ prefs, p.workspace.uri.id = w.uri.id) →
      ∃ p, getPreferences prefs w = some p ∧ p ∈ prefs ∧
        p.workspace.uri.id = w.uri.id)
    ∧ ((∀ p ∈ prefs, p.workspace.uri.id ≠ w.uri.id) →
      getPreferences prefs w = prefs.head?)
    ∧ (prefs = [] → getPreferences prefs w = none) := by
  refine ⟨?_, ?_, ?_⟩
  · rintro ⟨p, hp, hid⟩
    have hs : (prefs.find? (fun q => q.workspace.uri.id == w.uri.id)).isSome := by
      rw [List.find?_isSome]
      exact ⟨p, hp, by simpa using hid⟩
    obtain ⟨q, hq⟩ := Option.isSome_iff_exists.mp hs
    refine ⟨q, ?_, List.mem_of_find?_eq_some hq, ?_⟩
    · unfold getPreferences
      rw [hq]
    · have hpq := List.find?_some hq
      simpa using hpq
  · intro hall
    have hn : prefs.find? (fun q => q.workspace.uri.id == w.uri.id) = none := by
      rw [List.find?_eq_none]
      intro x hx
      simpa using hall x hx
    unfold getPreferences
    rw [hn]
  · intro h
    subst h
    rfl

/-- C3 witness: the fallback and empty cases at concrete inputs. -/
theorem getPreferences_total_spec_witness :
    getPreferences [storeA] folderB = some storeA
    ∧ getPreferences ([] : List Preferences) folderB = none := by
  constructor
  · have h := (getPreferences_total_spec [storeA] folderB).2.1 (by decide)
    simpa using h
  · exact (getPreferences_total_spec [] folderB).2.2 rfl

/-- C6: `getFirstOrSelectedWorkspace` yields an absent result for an
undefined or empty folder list, the sole folder for a singleton (picker
not invoked), and the picker outcome for two or more folders (picker
invoked; dismissal yields an absent result). -/
theorem getFirstOrSelectedWorkspace_branching (pick : Option WorkspaceFolder) :
    getFirstOrSelectedWorkspace none pick = (none, false)
    ∧ getFirstOrSelectedWorkspace (some []) pick = (none, false)
    ∧ (∀ f, getFirstOrSelectedWorkspace (some [f]) pick = (some f, false))
    ∧ (∀ l : List WorkspaceFolder, l.length > 1 →
        getFirstOrSelectedWorkspace (some l) pick = (pick, true)) := by
  refine ⟨rfl, rfl, ?_, ?_⟩
  · intro f
    simp [getFirstOrSelectedWorkspace]
  · intro l hl
    cases pick <;> simp [getFirstOrSelectedWorkspace, hl]

/-- C6 witness: two folders with a picked result, and the undefined
folder list, at concrete inputs. -/
theorem getFirstOrSelectedWorkspace_branching_witness :
    getFirstOrSelectedWorkspace (some [folderA, folderB]) (some folderB)
      = (some folderB, true)
    ∧ getFirstOrSelectedWorkspace none (some folderB) = (none, false) := by
  constructor
  · exact (getFirstOrSelectedWorkspace_branching (some folderB)).2.2.2
      [folderA, folderB] (by decide)
  · exact (getFirstOrSelectedWorkspace_branching (some folderB)).1

/-- C8: the composition root registers exactly the language tag `cpp`,
always registers the deploy-only deployer, registers the debug and
simulate deployers exactly when `allowDebug`, and its `dispose` does
nothing. -/
theorem debugDeploy_registration (allowDebug : Bool)
    (api : DeployDebugApiState) :
    (DebugDeploy.construct allowDebug api).languageChoices
        = api.languageChoices ++ ["cpp"]
    ∧ (DebugDeploy.construct allowDebug api).codeDeployers
        = api.codeDeployers ++ [CppDeployer.deployDeployer]
    ∧ (DebugDeploy.construct allowDebug api).codeDebuggers
        = api.codeDebuggers ++
            (if allowDebug then [CppDeployer.debugDeployer] else [])
    ∧ (DebugDeploy.construct allowDebug api).codeSimulators
        = api.codeSimulators ++
            (if allowDebug then [CppDeployer.simulator] else [])
    ∧ DebugDeploy.dispose = () := by
  cases allowDebug <;> simp [DebugDeploy.construct, DebugDeploy.dispose]

/-- C10: the simulate variant ignores its team-number parameter — two
runs differing only in the team number are identical. -/
theorem simulate_ignores_teamNumber (prefs : List Preferences) (env : SimEnv)
    (t1 t2 : Int) (w : WorkspaceFolder) :
    SimulateCodeDeployer.runDeployer prefs env t1 w
      = SimulateCodeDeployer.runDeployer prefs env t2 w := rfl

/-- C7: the deploy-only variant invokes the build runner with
`deploy -PteamNumber=<t>` against the workspace's filesystem path and the
online flag read from the workspace's preferences; a non-zero exit
returns `false` with no file read, a zero exit returns `true`. -/
theorem deploy_runDeployer_spec (prefs : List Preferences)
    (gradle : GradleCall → Int) (t : Int) (w : WorkspaceFolder)
    (pw : Preferences) (hp : getPreferences prefs w = some pw) :
    DeployCodeDeployer.runDeployer prefs gradle t w =
      (if gradle ⟨"deploy -PteamNumber=" ++ toString t, w.uri.fsPath, w,
            pw.getOnline⟩ ≠ 0 then
        some ⟨⟨"deploy -PteamNumber=" ++ toString t, w.uri.fsPath, w,
               pw.getOnline⟩, false, []⟩
      else
        some ⟨⟨"deploy -PteamNumber=" ++ toString t, w.uri.fsPath, w,
               pw.getOnline⟩, true, []⟩) := by
  simp only [DeployCodeDeployer.runDeployer, hp]

/-- C7 witness: team number 900 against `/a` with a zero-exit runner. -/
theorem deploy_runDeployer_spec_witness :
    DeployCodeDeployer.runDeployer [storeA] gradleZero 900 folderA =
      some ⟨⟨"deploy -PteamNumber=900", "/a", folderA, true⟩, true, []⟩ := by
  rw [deploy_runDeployer_spec [storeA] gradleZero 900 folderA storeA (by decide)]
  decide

/-- C4: dismissing the artifact picker during a debug run returns `false`
without invoking the debug launcher; dismissing the extensions picker
during a simulate run still invokes the platform-appropriate launcher
with an empty extensions string. -/
theorem cancellation_semantics (prefs : List Preferences) (denv : DebugEnv)
    (senv : SimEnv) (t : Int) (w : WorkspaceFolder) (pw : Preferences)
    (target : ICppDebugCommand) (tex : String)
    (hp : getPreferences prefs w = some pw)
    (hdg : ∀ c, denv.gradle c = 0)
    (hdlen : denv.debugInfo.length > 1)
    (hdpick : denv.pick = none)
    (hsg : ∀ c, senv.gradle c = 0)
    (hst : selectedTarget senv.desktopInfo senv.targetPick = some (some target))
    (hext : target.extensions = some tex)
    (htex : tex.length > 0)
    (hspick : senv.extPick = none) :
    DebugCodeDeployer.runDeployer prefs denv t w =
      some ⟨⟨"deploy -PdebugMode -PteamNumber=" ++ toString t, w.uri.fsPath,
             w, pw.getOnline⟩, false, none⟩
    ∧ SimulateCodeDeployer.runDeployer prefs senv t w =
      some ⟨⟨"simulateExternalCpp", w.uri.fsPath, w, pw.getOnline⟩, true,
        some (if senv.isWindows then
            SimLaunch.windows ⟨"", target.launchfile,
              pw.getStopSimulationOnEntry, w⟩
          else
            SimLaunch.unix ⟨target.clang, target.launchfile, "",
              soPathOf target.sofiles, jsSetList target.srcpaths,
              pw.getStopSimulationOnEntry, w⟩)⟩ := by
  constructor
  · have hsel : selectedTarget denv.debugInfo denv.pick = none := by
      unfold selectedTarget
      rw [if_pos hdlen, hdpick]
    simp only [DebugCodeDeployer.runDeployer, hp, hdg, hsel]
    simp
  · have hch : chosenExtensions senv.isWindows tex senv.extPick = "" := by
      unfold chosenExtensions
      rw [if_pos htex, hspick]
    simp only [SimulateCodeDeployer.runDeployer, hp, hsg, hst, hext, hch]
    cases hw : senv.isWindows <;> simp [hw]

/-- C4 witness: a dismissed artifact picker over two artifacts, and a
dismissed extensions picker on a Unix host, at concrete inputs. -/
theorem cancellation_semantics_witness :
    DebugCodeDeployer.runDeployer [storeA] debugEnvCancel 0 folderA =
      some ⟨⟨"deploy -PdebugMode -PteamNumber=0", "/a", folderA, true⟩,
            false, none⟩
    ∧ SimulateCodeDeployer.runDeployer [storeA] simEnvUnix 0 folderA =
      some ⟨⟨"simulateExternalCpp", "/a", folderA, true⟩, true,
        some (SimLaunch.unix ⟨some true, "launch", "", "/a;/a;/b", ["/s"],
          false, folderA⟩)⟩ := by
  obtain ⟨h1, h2⟩ := cancellation_semantics [storeA] debugEnvCancel simEnvUnix
    0 folderA storeA cmdA "ext" (by decide) (fun _ => rfl) (by decide) rfl
    (fun _ => rfl) rfl rfl (by decide) rfl
  constructor
  · rw [h1]
    decide
  · rw [h2]
    decide

/-- C5: on a non-Windows host the simulate configuration handed to the
Unix launcher carries the derived library search path and the
descriptor's toolchain flag; on Windows the configuration handed to the
Windows launcher has neither field (its record type does not carry
them). -/
theorem simulate_platform_branch (prefs : List Preferences) (env : SimEnv)
    (t : Int) (w : WorkspaceFolder) (pw : Preferences)
    (target : ICppDebugCommand) (tex : String)
    (hp : getPreferences prefs w = some pw)
    (hg : ∀ c, env.gradle c = 0)
    (hst : selectedTarget env.desktopInfo env.targetPick = some (some target))
    (hext : target.extensions = some tex) :
    (env.isWindows = false →
      SimulateCodeDeployer.runDeployer prefs env t w =
        some ⟨⟨"simulateExternalCpp", w.uri.fsPath, w, pw.getOnline⟩, true,
          some (SimLaunch.unix ⟨target.clang, target.launchfile,
            chosenExtensions env.isWindows tex env.extPick,
            soPathOf target.sofiles, jsSetList target.srcpaths,
            pw.getStopSimulationOnEntry, w⟩)⟩)
    ∧ (env.isWindows = true →
      SimulateCodeDeployer.runDeployer prefs env t w =
        some ⟨⟨"simulateExternalCpp", w.uri.fsPath, w, pw.getOnline⟩, true,
          some (SimLaunch.windows ⟨
            chosenExtensions env.isWindows tex env.extPick,
            target.launchfile, pw.getStopSimulationOnEntry, w⟩)⟩) := by
  constructor <;> intro hw <;>
    simp only [SimulateCodeDeployer.runDeployer, hp, hg, hst, hext, hw] <;>
    simp

/-- C5 witness: the same resolved target on a Unix host and on a Windows
host. -/
theorem simulate_platform_branch_witness :
    SimulateCodeDeployer.runDeployer [storeA] simEnvWin 0 folderA =
      some ⟨⟨"simulateExternalCpp", "/a", folderA, true⟩, true,
        some (SimLaunch.windows ⟨"", "launch", false, folderA⟩)⟩
    ∧ SimulateCodeDeployer.runDeployer [storeB] simEnvUnix 0 folderB =
      some ⟨⟨"simulateExternalCpp", "/b", folderB, false⟩, true,
        some (SimLaunch.unix ⟨some true, "launch", "", "/a;/a;/b", ["/s"],
          true, folderB⟩)⟩ := by
  constructor
  · rw [(simulate_platform_branch [storeA] simEnvWin 0 folderA storeA cmdA
      "ext" (by decide) (fun _ => rfl) rfl rfl).2 rfl]
    decide
  · rw [(simulate_platform_branch [storeB] simEnvUnix 0 folderB storeB cmdA
      "ext" (by decide) (fun _ => rfl) rfl rfl).1 rfl]
    decide

theorem selectedTarget_eq_some_none {α : Type} (parsed : List α)
    (pick : Option α) :
    selectedTarget parsed pick = some none ↔ parsed = [] := by
  cases parsed with
  | nil => simp [selectedTarget]
  | cons a l =>
    cases l with
    | nil => simp [selectedTarget]
    | cons b l2 =>
      have hlen : (a :: b :: l2).length > 1 := by simp
      simp only [selectedTarget, if_pos hlen]
      cases pick <;> simp

/-- C9: with a preferences store present, the debug run's access to the
first (or picked) artifact and its `debugfile` field succeeds whenever
the parsed artifact index is non-empty; with an empty index and a
successful build, the embedding's `Option`-returning access hits its
`none` branch. -/
theorem debug_artifact_selection_safety (prefs : List Preferences)
    (env : DebugEnv) (t : Int) (w : WorkspaceFolder) (pw : Preferences)
    (hp : getPreferences prefs w = some pw) :
    (env.debugInfo ≠ [] →
      (DebugCodeDeployer.runDeployer prefs env t w).isSome = true)
    ∧ ((∀ c, env.gradle c = 0) → env.debugInfo = [] →
      DebugCodeDeployer.runDeployer prefs env t w = none) := by
  constructor
  · intro hne
    simp only [DebugCodeDeployer.runDeployer, hp]
    split
    · rfl
    · cases hsel : selectedTarget env.debugInfo env.pick with
      | none => rfl
      | some o =>
        cases o with
        | none => exact absurd ((selectedTarget_eq_some_none _ _).mp hsel) hne
        | some tgt => rfl
  · intro hg hempty
    have hsel : selectedTarget env.debugInfo env.pick = some none :=
      (selectedTarget_eq_some_none _ _).mpr hempty
    simp only [DebugCodeDeployer.runDeployer, hp, hg, hsel]
    simp

/-- C9 witness: a two-artifact index is safe; an empty index hits the
absent branch. -/
theorem debug_artifact_selection_safety_witness :
    (DebugCodeDeployer.runDeployer [storeA] debugEnvCancel 0 folderA).isSome
      = true
    ∧ DebugCodeDeployer.runDeployer [storeA] debugEnvEmpty 0 folderA
        = none := by
  constructor
  · exact (debug_artifact_selection_safety [storeA] debugEnvCancel 0 folderA
      storeA (by decide)).1 (by decide)
  · exact (debug_artifact_selection_safety [storeA] debugEnvEmpty 0 folderA
      storeA (by decide)).2 (fun _ => rfl) rfl

/-- C1 (amended): on a folder-change event whose current folder set is
defined, every previously held store is disposed, the sequence is rebuilt
from the complete current folder set, exactly one event is fired carrying
one `(store, folder)` pair per open folder, and `getPreferences` then
returns, for every open folder, a store created in that rebuild and never
a pre-event store; when the folder set is `undefined`, the held stores
are still disposed but no event is fired and the stale sequence stays. -/
theorem registry_rebuild (env : WorkspaceFolder → PrefData)
    (s : RegistryState) (wpl : List WorkspaceFolder)
    (hgen : ∀ p ∈ s.preferences, p.generation ≤ s.generation) :
    (onDidChangeWorkspaceFolders env s (some wpl)).2.1 = s.preferences
    ∧ (onDidChangeWorkspaceFolders env s (some wpl)).2.2 =
        [wpl.map fun w =>
          (⟨mkPreferences env (s.generation + 1) w, w⟩ :
            PreferencesChangedPair)]
    ∧ (onDidChangeWorkspaceFolders env s (some wpl)).1.preferences =
        wpl.map (mkPreferences env (s.generation + 1))
    ∧ ∀ f ∈ wpl, ∃ p,
        getPreferences
          (onDidChangeWorkspaceFolders env s (some wpl)).1.preferences f
          = some p
        ∧ p.generation = s.generation + 1
        ∧ p ∉ s.preferences := by
  refine ⟨rfl, rfl, rfl, ?_⟩
  intro f hf
  have hmem : mkPreferences env (s.generation + 1) f ∈
      wpl.map (mkPreferences env (s.generation + 1)) :=
    List.mem_map_of_mem _ hf
  have hs1 : ((wpl.map (mkPreferences env (s.generation + 1))).find?
      (fun q => q.workspace.uri.id == f.uri.id)).isSome := by
    rw [List.find?_isSome]
    exact ⟨_, hmem, by simp [mkPreferences]⟩
  obtain ⟨q, hq⟩ := Option.isSome_iff_exists.mp hs1
  have hqmem := List.mem_of_find?_eq_some hq
  obtain ⟨w', hw', hweq⟩ := List.mem_map.mp hqmem
  refine ⟨q, ?_, ?_, ?_⟩
  · show getPreferences (wpl.map (mkPreferences env (s.generation + 1))) f
      = some q
    unfold getPreferences
    rw [hq]
  · rw [← hweq]
    rfl
  · intro hin
    have hle := hgen q hin
    rw [← hweq] at hle
    simp only [mkPreferences] at hle
    exact Nat.not_succ_le_self _ hle

/-- C1 counterexample: when the folder set reported at the event is
`undefined`, the handler disposes the held store but fires no event and
leaves the stale sequence in place, so the pre-event store is still
returned afterwards — refuting "exactly one change event is emitted" and
"no store from before the event is ever returned again". -/
theorem registry_rebuild_counterexample :
    (onDidChangeWorkspaceFolders envA s0 none).2.2 = []
    ∧ (onDidChangeWorkspaceFolders envA s0 none).1.preferences = [storeA]
    ∧ getPreferences (onDidChangeWorkspaceFolders envA s0 none).1.preferences
        folderA = some storeA := ⟨rfl, rfl, rfl⟩

/-- C1 witness: one rebuild, from a registry holding the generation-0
store for `/a`, over the folder set `[/b]`. -/
theorem registry_rebuild_witness :
    (onDidChangeWorkspaceFolders envA s0 (some [folderB])).2.1 = [storeA]
    ∧ (onDidChangeWorkspaceFolders envA s0 (some [folderB])).1.preferences
        = [⟨folderB, dataA, 1⟩]
    ∧ getPreferences
        (onDidChangeWorkspaceFolders envA s0 (some [folderB])).1.preferences
        folderB = some ⟨folderB, dataA, 1⟩ := by
  obtain ⟨h1, h2, h3, h4⟩ := registry_rebuild envA s0 [folderB] (by decide)
  exact ⟨h1.trans rfl, h3.trans (by decide), by decide⟩

end WPILib
